import Mathlib

/-
Verification development for the PDAL python plugin's invocation/marshaling
component (plugins/python/plang/Invocation.cpp).

Two shallow embeddings are used, each translated line by line from the
source:

* a reference-count model (namespace `Plang.RC`) of the parts of the code
  whose behaviour is about CPython reference counts: `Invocation::cleanup`,
  `Invocation::resetArguments`, the module-binding phase of
  `Invocation::execute` (lines 281-311), and `Invocation::setKWargs`.
  Guest objects are numeric ids, id 0 models the NULL pointer, and a heap
  maps ids to reference counts.  The model counts exactly the explicit
  Py_INCREF / Py_XDECREF calls made by the Invocation code itself; interior
  decrements performed by the interpreter when a container is destroyed
  (e.g. the tuple releasing its items) are not counted.

* a value model (namespace `Plang.Val`) of the parts whose behaviour is
  about guest values: the arity/result checks of `Invocation::execute`,
  `Invocation::insertArgument`, `Invocation::extractResult`,
  `Invocation::getOutputNames` and `Invocation::end`.  A guest dictionary
  is an association list whose keys carry the outcome of decoding the key
  to a host string (PyUnicode_AsUTF8String / PyBytes_AsString), and a
  numpy array is its dtype descriptor plus the byte contents of its
  backing buffer.
-/

set_option autoImplicit false

namespace Plang

namespace RC

/-- Reference-count heap: guest object id to reference count.  Id 0 models
the NULL pointer and never denotes an object. -/
abbrev Heap := Nat → Int

/-- Py_INCREF o. -/
def incref (h : Heap) (o : Nat) : Heap :=
  fun x => if x = o then h x + 1 else h x

/-- Py_DECREF o. -/
def decref (h : Heap) (o : Nat) : Heap :=
  fun x => if x = o then h x - 1 else h x

/-- Py_XDECREF o: a decrement that is a no-op on NULL. -/
def xdecref (h : Heap) (o : Nat) : Heap :=
  if o = 0 then h else decref h o

/-- The reference-count-relevant member pointers of `Invocation`
(Invocation.hpp / constructor lines 78-95): each guest-object member holds
an object id (0 = NULL), `pyInputArrays` is m_pyInputArrays and `buffers`
is m_buffers, the list of staging buffers malloced by `begin`. -/
structure Inv where
  bytecode : Nat
  varsIn : Nat
  varsOut : Nat
  scriptArgs : Nat
  scriptResult : Nat
  pyInputArrays : List Nat
  metadata : Nat
  schema : Nat
  srs : Nat
  pdalargs : Nat
  buffers : List Nat
  deriving DecidableEq

/-- Invocation::cleanup (lines 132-142): Py_XDECREF on m_varsIn, m_varsOut,
m_scriptResult, m_scriptArgs, each input array, then m_bytecode; clears
m_pyInputArrays.  The member pointers themselves are not nulled, and
m_buffers and the four auxiliary-context members are not touched. -/
def cleanup (s : Inv) (h : Heap) : Inv × Heap :=
  let h := xdecref h s.varsIn
  let h := xdecref h s.varsOut
  let h := xdecref h s.scriptResult
  let h := xdecref h s.scriptArgs
  let h := s.pyInputArrays.foldl xdecref h
  let h := xdecref h s.bytecode
  ({ s with pyInputArrays := [] }, h)

/-- Allocation state for fresh guest objects: the heap plus the next unused
object id (always positive). -/
structure World where
  heap : Heap
  next : Nat

/-- PyDict_New and similar constructors: a fresh object with count 1. -/
def alloc (w : World) : Nat × World :=
  (w.next, ⟨fun x => if x = w.next then 1 else w.heap x, w.next + 1⟩)

/-- Invocation::resetArguments (lines 145-150): cleanup, then two fresh
dictionaries for m_varsIn and m_varsOut. -/
def resetArguments (s : Inv) (w : World) : Inv × World :=
  let c := cleanup s w.heap
  let a1 := alloc ⟨c.2, w.next⟩
  let a2 := alloc a1.2
  ({ c.1 with varsIn := a1.1, varsOut := a2.1 }, a2.2)

/-- One module binding performed by the auxiliary-context phase of
Invocation::execute: the name bound, the object handed to
PyModule_AddObject, and the object whose count the following Py_INCREF
bumps. -/
structure Binding where
  name : String
  bound : Nat
  increfed : Nat
  deriving DecidableEq

/-- The auxiliary-context binding phase of Invocation::execute (lines
281-311), with PyModule_AddObject modelled as succeeding (it steals the
handed reference, so it does not change the count; its failure branch,
pdal_error on a nonzero status, is never taken in the model).  Faithful to
the source, the schema branch increments m_srs_PyObject and the
spatialreference branch increments m_schema_PyObject. -/
def publishAux (s : Inv) (h : Heap) : Heap × List Binding :=
  let st : Heap × List Binding := (h, [])
  let st := if s.metadata ≠ 0 then
      (incref st.1 s.metadata, st.2 ++ [⟨"metadata", s.metadata, s.metadata⟩])
    else st
  let st := if s.schema ≠ 0 then
      (incref st.1 s.srs, st.2 ++ [⟨"schema", s.schema, s.srs⟩])
    else st
  let st := if s.srs ≠ 0 then
      (incref st.1 s.schema, st.2 ++ [⟨"spatialreference", s.srs, s.schema⟩])
    else st
  let st := if s.pdalargs ≠ 0 then
      (incref st.1 s.pdalargs, st.2 ++ [⟨"pdalargs", s.pdalargs, s.pdalargs⟩])
    else st
  st

/-- Message of the pdal_error thrown when getPyJSON fails (lines 328-357):
the guest traceback of the JSON decode failure. -/
def jsonDecodeMsg : String := "JsonDecodeError: guest traceback"

/-- Outcome of Invocation::setKWargs: the member state, the heap, and the
error thrown if any (some = a pdal_error escaped). -/
structure KWResult where
  state : Inv
  heap : Heap
  err : Option String

/-- Invocation::setKWargs (lines 359-363): Py_XDECREF(m_pdalargs_PyObject)
first, then m_pdalargs_PyObject = getPyJSON(s).  `parsed` is the outcome of
getPyJSON (modelled from the spec: the guest json.loads call is external):
some id on success, none when parsing fails and getPyJSON throws.  On the
throw the assignment never happens, so the member keeps its old pointer
although its reference was already released. -/
def setKWargs (s : Inv) (h : Heap) (parsed : Option Nat) : KWResult :=
  let h := xdecref h s.pdalargs
  match parsed with
  | Option.none => ⟨s, h, some jsonDecodeMsg⟩
  | some j => ⟨{ s with pdalargs := j }, h, Option.none⟩

end RC

namespace Val

/-- Dimension::BaseType (external PDAL core header).  Modelled from the
spec: element kind is signed integer, unsigned integer or floating
point. -/
inductive BaseType where
  | Signed
  | Unsigned
  | Floating
  deriving DecidableEq

/-- Dimension::Type (external PDAL core header).  Modelled from the spec:
the attribute types of the point-cloud layout, each with a declared byte
size and base kind. -/
inductive DimType where
  | int8
  | int16
  | int32
  | int64
  | uint8
  | uint16
  | uint32
  | uint64
  | float32
  | float64
  deriving DecidableEq

/-- Dimension::size (external).  Modelled from the spec: the declared byte
size of each attribute type. -/
def DimType.size : DimType → Nat
  | DimType.int8 => 1
  | DimType.int16 => 2
  | DimType.int32 => 4
  | DimType.int64 => 8
  | DimType.uint8 => 1
  | DimType.uint16 => 2
  | DimType.uint32 => 4
  | DimType.uint64 => 8
  | DimType.float32 => 4
  | DimType.float64 => 8

/-- Dimension::base (external).  Modelled from the spec: the base kind of
each attribute type. -/
def DimType.base : DimType → BaseType
  | DimType.int8 => BaseType.Signed
  | DimType.int16 => BaseType.Signed
  | DimType.int32 => BaseType.Signed
  | DimType.int64 => BaseType.Signed
  | DimType.uint8 => BaseType.Unsigned
  | DimType.uint16 => BaseType.Unsigned
  | DimType.uint32 => BaseType.Unsigned
  | DimType.uint64 => BaseType.Unsigned
  | DimType.float32 => BaseType.Floating
  | DimType.float64 => BaseType.Floating

/-- A numpy dtype descriptor: the kind character and the element byte size
(PyArray_Descr fields kind and elsize). -/
structure NpDescr where
  kind : Char
  elsize : Nat
  deriving DecidableEq

/-- The numpy kind character of each PDAL base type. -/
def npKindOf : BaseType → Char
  | BaseType.Signed => 'i'
  | BaseType.Unsigned => 'u'
  | BaseType.Floating => 'f'

/-- Environment::getPythonDataType (external, Environment.cpp).  Modelled
from the spec: the type-mapping table is a total function from host
attribute type to guest element descriptor (byte size + kind) and is
consistent in both directions. -/
def getPythonDataType (t : DimType) : NpDescr :=
  ⟨npKindOf t.base, t.size⟩

/-- A numpy array object: its dtype descriptor, the byte contents of its
backing buffer, and its declared length (the single dimension passed to
PyArray_New). -/
structure NpArray where
  descr : NpDescr
  data : List Nat
  len : Nat
  deriving DecidableEq

/-- A guest value, as far as the Invocation inspects one: a bool (the only
values for which PyBool_Check holds), a numpy array (the only values for
which PyArray_Check holds), a string, or anything else. -/
inductive PyVal where
  | bool : Bool → PyVal
  | array : NpArray → PyVal
  | str : String → PyVal
  | pyNone : PyVal
  deriving DecidableEq

/-- PyBool_Check. -/
def pyBoolCheck : PyVal → Bool
  | PyVal.bool _ => true
  | _ => false

/-- A guest dictionary: an association list from keys to values.  A key is
recorded as the outcome of decoding it to a host string
(PyBytes_AsString(PyUnicode_AsUTF8String(key))): some name when the key
decodes, none when the decode fails and yields a null pointer. -/
abbrev Dict := List (Option String × PyVal)

/-- PyDict_GetItemString: look the dictionary up by a host string.  A key
whose decode failed can never equal a key built from a host string. -/
def lookupStr (d : Dict) (name : String) : Option PyVal :=
  (d.find? fun kv => decide (kv.fst = some name)).map (fun kv => kv.snd)

/-- PyDict_SetItemString: overwrite the entry of the same name, or append a
new entry. -/
def dictSet (d : Dict) (name : String) (v : PyVal) : Dict :=
  if d.any fun kv => decide (kv.fst = some name) then
    d.map fun kv => if kv.fst = some name then (kv.fst, v) else kv
  else d ++ [(some name, v)]

/-- Invocation::hasOutputVariable (lines 254-257). -/
def hasOutputVariable (d : Dict) (name : String) : Bool :=
  (lookupStr d name).isSome

/-- Invocation::getOutputNames (lines 233-251): walk the outputs
dictionary, decode each key to a host string, and keep the names whose
decode yielded a non-null pointer; a key whose decode fails is silently
skipped, no error is raised. -/
def getOutputNames (d : Dict) : List String :=
  d.filterMap (fun kv => kv.fst)

/-- Invocation::insertArgument (lines 153-174): wrap the staging buffer as
a one-dimensional numpy array whose dtype comes from
Environment::getPythonDataType and whose stride is Dimension::size, then
PyDict_SetItemString it into m_varsIn.  (The push of the wrapper onto
m_pyInputArrays is tracked by the reference-count model.) -/
def insertArgument (varsIn : Dict) (name : String) (data : List Nat)
    (t : DimType) (count : Nat) : Dict :=
  dictSet varsIn name (PyVal.array ⟨getPythonDataType t, data, count⟩)

/-- Message of the pdal_error thrown when the named output is missing
(line 182). -/
def missingOutputMsg (name : String) : String :=
  "plang output variable not found: " ++ name

/-- Message of the pdal_error thrown when the bound output value is not a
numpy array (lines 184-185). -/
def notArrayMsg (name : String) : String :=
  "plang output variable is not a numpy array: " ++ name

/-- Message of the pdal_error thrown when the array element size differs
from the dimension byte size (lines 195-199). -/
def sizeMismatchMsg (name : String) : String :=
  "dtype of array has a size different from the PDAL dimension byte size: "
    ++ name

/-- Message of the pdal_error thrown when the array kind is signed integer
but the dimension base type is not Signed (lines 204-211). -/
def kindSignedMsg (name : String) : String :=
  "dtype of array has a signed integer type but the dimension data type is not pdal Signed: "
    ++ name

/-- Message of the pdal_error thrown when the array kind is unsigned
integer but the dimension base type is not Unsigned (lines 213-220). -/
def kindUnsignedMsg (name : String) : String :=
  "dtype of array has a unsigned integer type but the dimension data type is not pdal Unsigned: "
    ++ name

/-- Message of the pdal_error thrown when the array kind is float but the
dimension base type is not Floating (lines 222-228). -/
def kindFloatMsg (name : String) : String :=
  "dtype of array has a float type but the dimension data type is not pdal Floating: "
    ++ name

/-- Invocation::extractResult (lines 177-230): look `name` up in m_varsOut;
throw if absent; throw if the value is not a numpy array; throw if the
dtype element size differs from Dimension::size(t); then the three kind
checks of the source, each firing only when the dtype kind is the given
character and the base type disagrees; finally return
PyArray_GetPtr(arr, 0), modelled as the byte contents of the backing
buffer. -/
def extractResult (varsOut : Dict) (name : String) (t : DimType) :
    Except String (List Nat) :=
  match lookupStr varsOut name with
  | Option.none => Except.error (missingOutputMsg name)
  | some xarr =>
    match xarr with
    | PyVal.array arr =>
      if arr.descr.elsize ≠ t.size then Except.error (sizeMismatchMsg name)
      else if arr.descr.kind = 'i' ∧ t.base ≠ BaseType.Signed then
        Except.error (kindSignedMsg name)
      else if arr.descr.kind = 'u' ∧ t.base ≠ BaseType.Unsigned then
        Except.error (kindUnsignedMsg name)
      else if arr.descr.kind = 'f' ∧ t.base ≠ BaseType.Floating then
        Except.error (kindFloatMsg name)
      else Except.ok arr.data
    | _ => Except.error (notArrayMsg name)

/-- The base type that each of the three checked numpy kind characters
requires; kinds outside signed int, unsigned int and float are not
checked by the source.  Spec-side definition, used only to state the
amended extraction contract. -/
def baseOfKind (k : Char) : Option BaseType :=
  if k = 'i' then some BaseType.Signed
  else if k = 'u' then some BaseType.Unsigned
  else if k = 'f' then some BaseType.Floating
  else Option.none

/-- The kind-mismatch message matching a checked kind character.  Spec-side
definition, used only to state the amended extraction contract. -/
def kindErrorMsg (k : Char) (name : String) : String :=
  if k = 'i' then kindSignedMsg name
  else if k = 'u' then kindUnsignedMsg name
  else kindFloatMsg name

/-- Spec-side statement of the amended extraction contract: missing name,
then non-array, then size mismatch are errors; a kind mismatch is an error
exactly when the dtype kind is one of the three checked kind characters
and the base type it requires is not the dimension's base type; any other
kind passes unchecked; otherwise the backing buffer is returned. -/
def extractResultSpec (varsOut : Dict) (name : String) (t : DimType) :
    Except String (List Nat) :=
  match lookupStr varsOut name with
  | Option.none => Except.error (missingOutputMsg name)
  | some (PyVal.array arr) =>
    if arr.descr.elsize = t.size then
      match baseOfKind arr.descr.kind with
      | some b =>
        if b = t.base then Except.ok arr.data
        else Except.error (kindErrorMsg arr.descr.kind name)
      | Option.none => Except.ok arr.data
    else Except.error (sizeMismatchMsg name)
  | some _ => Except.error (notArrayMsg name)

/-- Message of the pdal_error thrown when no code has been compiled
(line 263). -/
def notCompiledMsg : String := "No code has been compiled"

/-- Message of the pdal_error thrown by the arity check (line 270). -/
def arityMsg : String :=
  "Only two arguments -- ins and outs numpy arrays -- can be passed!"

/-- Message of the pdal_error thrown when PyObject_CallObject raises
(line 315): the guest traceback. -/
def executionErrMsg : String := "ExecutionError: guest traceback"

/-- Message of the pdal_error thrown when the script result is not a
boolean (line 317). -/
def nonBooleanMsg : String :=
  "User function return value not a boolean type."

/-- The control-flow skeleton of Invocation::execute (lines 260-326) at the
value level: throw if no bytecode was compiled; compute the entry
function's declared parameter count (argCount, lines 57-69, given here as
`numArgs`); throw the arity error when it exceeds two; otherwise build the
argument tuple, publish the auxiliary context (reference-count effects are
in the RC model; the binding failure branch is never taken) and call the
entry function.  `callResult` is the outcome of PyObject_CallObject: none
when the call raises, otherwise the returned value.  A non-boolean result
is an error; otherwise the result of execute is whether the returned value
is Py_True. -/
def executeVal (compiled : Bool) (numArgs : Nat) (callResult : Option PyVal) :
    Except String Bool :=
  if compiled = false then Except.error notCompiledMsg
  else if numArgs > 2 then Except.error arityMsg
  else
    match callResult with
    | Option.none => Except.error executionErrMsg
    | some r =>
      if pyBoolCheck r = false then Except.error nonBooleanMsg
      else Except.ok (r = PyVal.bool true : Bool)

/-- Spec-side statement of the script-result contract: a boolean result is
returned as its truth value (false being a normal, non-error outcome); any
other value is the non-boolean-result error. -/
def scriptResultSpec (v : PyVal) : Except String Bool :=
  match v with
  | PyVal.bool b => Except.ok b
  | _ => Except.error nonBooleanMsg

/-- The script of the spec's round-trip property, modelled from the spec:
a guest entry function that copies inputs[name] to outputs[name]
unchanged.  Returns the updated outputs dictionary. -/
def identityCopyScript (varsIn varsOut : Dict) (name : String) : Dict :=
  match lookupStr varsIn name with
  | some v => dictSet varsOut name v
  | Option.none => varsOut

/-- The point-cloud storage visible to Invocation::end: for each attribute
name, the byte contents of that attribute's column. -/
abbrev Store := List (String × List Nat)

/-- Read one attribute's column. -/
def storeGet : Store → String → Option (List Nat)
  | [], _ => Option.none
  | kv :: tl, name =>
    if kv.fst = name then some kv.snd else storeGet tl name

/-- The per-point setField loop of Invocation::end (lines 432-437),
compressed to one column: overwrite the named attribute's bytes. -/
def storeSet : Store → String → List Nat → Store
  | [], _, _ => []
  | kv :: tl, name, bytes =>
    (if kv.fst = name then (kv.fst, bytes) else kv) :: storeSet tl name bytes

/-- One iteration of the dimension loop of Invocation::end (lines
419-438): skip the dimension when its name is not among the output names,
otherwise extract the output array (whose failure propagates as the thrown
pdal_error) and copy it into the storage. -/
def endStep (varsOut : Dict) (names : List String) (st : Store)
    (dim : String × DimType) : Except String Store :=
  if dim.fst ∈ names then
    match extractResult varsOut dim.fst dim.snd with
    | Except.error e => Except.error e
    | Except.ok data => Except.ok (storeSet st dim.fst data)
  else Except.ok st

/-- Invocation::end (lines 406-444): compute the output names once, run the
dimension loop, then free every staging buffer and clear m_buffers.  On a
thrown extraction error the buffer-freeing loop is never reached, which the
error result models (the caller's state keeps the old buffer list).  The
final metadata merge (lines 442-443) touches neither the storage nor the
buffers and is outside the model. -/
def endOp (varsOut : Dict) (layout : List (String × DimType)) (store : Store)
    (buffers : List Nat) : Except String (Store × List Nat) :=
  match layout.foldlM (endStep varsOut (getOutputNames varsOut)) store with
  | Except.error e => Except.error e
  | Except.ok st => Except.ok (st, ([] : List Nat))

end Val

/-- A heap in which every object id carries reference count 1. -/
def heapOnes : RC.Heap := fun _ => 1

/-- A heap in which every object id carries reference count 3. -/
def heapThrees : RC.Heap := fun _ => 3

/-- Member state after a begin call set the schema and spatialreference
slots: m_schema_PyObject is object 1 and m_srs_PyObject is object 2. -/
def invSchemaSrs : RC.Inv := ⟨0, 0, 0, 0, 0, [], 0, 1, 2, 0, []⟩

/-- Member state in which only the schema slot is set: m_schema_PyObject is
object 1 and every other guest-object member is NULL. -/
def invSchemaOnly : RC.Inv := ⟨0, 0, 0, 0, 0, [], 0, 1, 0, 0, []⟩

/-- Member state of an Invocation still owning one staging buffer from a
begin call whose matching end never ran (m_buffers holds the malloced
pointer, pushed at line 375). -/
def invWithBuffer : RC.Inv := ⟨0, 0, 0, 0, 0, [], 0, 0, 0, 0, [7]⟩

/-- An allocation world over the all-ones heap whose next fresh id is 10. -/
def worldOnes : RC.World := ⟨heapOnes, 10⟩

/-- Member state after a successful setKWargs: m_pdalargs_PyObject is
object 5. -/
def invPdalargs : RC.Inv := ⟨0, 0, 0, 0, 0, [], 0, 0, 0, 5, []⟩

/-- Member state in which m_varsIn is object 1 and everything else is
NULL or empty. -/
def invVarsIn : RC.Inv := ⟨0, 1, 0, 0, 0, [], 0, 0, 0, 0, []⟩

/-- Member state whose five cleanup-tracked guest-object members are all
NULL while m_pyInputArrays still holds one wrapper (object 4). -/
def invNullMembers : RC.Inv := ⟨0, 0, 0, 0, 0, [4], 0, 0, 0, 0, []⟩

/-- An outputs dictionary binding the single decodable name "a" to a
one-byte unsigned array holding 9. -/
def outDictA : Val.Dict :=
  [(some "a", Val.PyVal.array ⟨⟨'u', 1⟩, [9], 1⟩)]

/-- A two-attribute point-cloud layout. -/
def layoutAB : List (String × Val.DimType) :=
  [("a", Val.DimType.uint8), ("b", Val.DimType.uint8)]

/-- Storage holding one byte per attribute for the two-attribute layout. -/
def storeAB : Val.Store := [("a", [1]), ("b", [2])]

/-- C1: the claim says the Invocation increments the reference count of the
very object being handed to the guest runtime for each non-null auxiliary
binding.  In the source the schema branch increments m_srs_PyObject and
the spatialreference branch increments m_schema_PyObject (lines 294 and
302).  First conjunct: at a state with schema = object 1 and srs = object
2, the binding trace pairs the schema binding with an increment of object
2 and the spatialreference binding with an increment of object 1.  Second
conjunct: at a state where only schema is set, the reference count of the
schema object is unchanged by the whole binding phase even though the
object was handed to the module. -/
theorem execute_increfs_swapped_slot :
    (RC.publishAux invSchemaSrs heapOnes).2 =
      [⟨"schema", 1, 2⟩, ⟨"spatialreference", 2, 1⟩]
    ∧ (RC.publishAux invSchemaOnly heapOnes).1 1 = heapOnes 1 := by
  exact ⟨rfl, rfl⟩

/-- C2 counterexample: the claim says every staging buffer allocated by a
prior begin has been released after resetArguments, but cleanup (lines
132-142) and resetArguments (lines 145-150) never touch m_buffers, so an
Invocation holding a staging buffer from a begin whose end never ran still
owns it after resetArguments. -/
theorem resetArguments_keeps_staging_buffer :
    (RC.resetArguments invWithBuffer worldOnes).1.buffers ≠ [] := by
  decide

/-- C2 (amended): staging buffers allocated by begin are released only by
end; resetArguments and cleanup (hence also the destructor, which only
calls cleanup) leave m_buffers exactly as it was. -/
theorem resetArguments_buffers_unchanged (s : RC.Inv) (w : RC.World) :
    (RC.resetArguments s w).1.buffers = s.buffers
    ∧ (RC.cleanup s w.heap).1.buffers = s.buffers :=
  ⟨rfl, rfl⟩

/-- C3 counterexample: the claim says a failed setKWargs leaves the prior
pdalargs value unchanged and still validly owned, but the source releases
the prior reference before parsing (line 361), so on a parse failure the
member still holds the old pointer while its reference count has already
dropped. -/
theorem setKWargs_failure_releases_prior :
    (RC.setKWargs invPdalargs heapOnes Option.none).err = some RC.jsonDecodeMsg
    ∧ (RC.setKWargs invPdalargs heapOnes Option.none).state.pdalargs = 5
    ∧ (RC.setKWargs invPdalargs heapOnes Option.none).heap 5 ≠ heapOnes 5 := by
  refine ⟨rfl, rfl, ?_⟩
  decide

/-- C3 (amended): on any JSON parse failure setKWargs raises the decode
error and leaves the member pointer unchanged, but the prior pdalargs
reference has already been released (Py_XDECREF runs before getPyJSON), so
the member retains a stale, no-longer-owned pointer. -/
theorem setKWargs_failure_behaviour (s : RC.Inv) (h : RC.Heap) :
    (RC.setKWargs s h Option.none).err = some RC.jsonDecodeMsg
    ∧ (RC.setKWargs s h Option.none).state = s
    ∧ (RC.setKWargs s h Option.none).heap = RC.xdecref h s.pdalargs :=
  ⟨rfl, rfl, rfl⟩

/-- C4 counterexample: the claim says cleanup is idempotent on every state,
but cleanup does not null the member pointers it releases, so at a state
with m_varsIn = object 1 a second cleanup decrements that object's count
again. -/
theorem cleanup_twice_decrements_again :
    (RC.cleanup (RC.cleanup invVarsIn heapThrees).1
        (RC.cleanup invVarsIn heapThrees).2).2 1
      ≠ (RC.cleanup invVarsIn heapThrees).2 1 := by
  decide

/-- C4 (amended): cleanup is idempotent exactly on the states it cannot
double-release: when m_varsIn, m_varsOut, m_scriptResult, m_scriptArgs and
m_bytecode are all NULL, a second cleanup changes nothing (the input-array
list is cleared by the first call, so that part never repeats); with any
of those members non-null a second call decrements its count again. -/
theorem cleanup_idempotent_on_null (s : RC.Inv) (h : RC.Heap)
    (h1 : s.varsIn = 0) (h2 : s.varsOut = 0) (h3 : s.scriptResult = 0)
    (h4 : s.scriptArgs = 0) (h5 : s.bytecode = 0) :
    RC.cleanup (RC.cleanup s h).1 (RC.cleanup s h).2 = RC.cleanup s h := by
  simp [RC.cleanup, RC.xdecref, h1, h2, h3, h4, h5]

/-- Witness for the amended C4 theorem at a concrete state whose tracked
members are all NULL but whose input-array list is non-empty. -/
theorem cleanup_idempotent_on_null_witness :
    RC.cleanup (RC.cleanup invNullMembers heapThrees).1
        (RC.cleanup invNullMembers heapThrees).2
      = RC.cleanup invNullMembers heapThrees :=
  cleanup_idempotent_on_null invNullMembers heapThrees rfl rfl rfl rfl rfl

/-- C5 counterexample: the claim says execute raises the arity error unless
the entry function declares exactly one or two parameters, but the source
only checks numArgs > 2 (line 269), so a zero-parameter entry function is
not rejected: the call proceeds and execute returns normally. -/
theorem execute_zero_params_no_arity_error :
    Val.executeVal true 0 (some (Val.PyVal.bool true)) = Except.ok true := by
  rfl

/-- C5 (amended): for a compiled module, execute raises the arity error
exactly when the entry function declares three or more parameters, and in
that case it does so whatever the script body would do (the call outcome
is irrelevant, so the body never runs); functions declaring zero, one or
two parameters pass the check. -/
theorem execute_arity_error_iff (numArgs : Nat) (cr : Option Val.PyVal) :
    Val.executeVal true numArgs cr = Except.error Val.arityMsg ↔ 2 < numArgs := by
  by_cases hn : 2 < numArgs
  · simp [Val.executeVal, hn]
  · have hs1 : Val.executionErrMsg ≠ Val.arityMsg := by decide
    have hs2 : Val.nonBooleanMsg ≠ Val.arityMsg := by decide
    cases cr with
    | none => simp [Val.executeVal, hn, hs1]
    | some r =>
      by_cases hb : Val.pyBoolCheck r = false <;>
        simp [Val.executeVal, hn, hb, hs2]

/-- C7: after a successful call (with the contract arities one and two),
execute errors on every non-boolean result, even a truthy one, and
otherwise returns exactly whether the result is the boolean true value; a
boolean false is a normal non-error outcome. -/
theorem execute_result_contract (v : Val.PyVal) :
    Val.executeVal true 1 (some v) = Val.scriptResultSpec v
    ∧ Val.executeVal true 2 (some v) = Val.scriptResultSpec v := by
  refine ⟨?_, ?_⟩ <;>
    (cases v with
     | bool b => cases b <;> rfl
     | array a => rfl
     | str s => rfl
     | pyNone => rfl)

/-- C6 counterexample: the claim says extraction fails with the kind
mismatch error whenever the array's element kind does not agree with the
dimension's base kind, but the source only checks the three kinds signed
int, unsigned int and float: a numpy boolean array (kind character b, one
byte per element) bound to an unsigned one-byte dimension agrees with no
base kind yet extraction succeeds. -/
theorem extract_bool_kind_passes :
    Val.extractResult [(some "x", Val.PyVal.array ⟨⟨'b', 1⟩, [0], 1⟩)]
        "x" Val.DimType.uint8
      = Except.ok [0] := by
  rfl

/-- C6 (amended): extraction fails with the missing-output error when the
name is absent, the not-an-array error when the bound value is not a numpy
array, the size-mismatch error when the element byte sizes differ, and the
kind-mismatch error exactly when the array's kind character is one of the
three checked kinds (signed int, unsigned int, float) and the base type
that kind requires differs from the dimension's; any other kind character
is not checked, and a pointer is returned in every remaining case. -/
theorem extract_matches_amended_spec (varsOut : Val.Dict) (name : String)
    (t : Val.DimType) :
    Val.extractResult varsOut name t = Val.extractResultSpec varsOut name t := by
  unfold Val.extractResult Val.extractResultSpec
  cases Val.lookupStr varsOut name with
  | none => rfl
  | some v =>
    cases v with
    | array arr =>
      by_cases hi : arr.descr.kind = 'i' <;>
      by_cases hu : arr.descr.kind = 'u' <;>
      by_cases hf : arr.descr.kind = 'f' <;>
      by_cases hs : arr.descr.elsize = t.size <;>
      cases hb : t.base <;>
      simp_all [Val.baseOfKind, Val.kindErrorMsg]
    | bool b => rfl
    | str s => rfl
    | pyNone => rfl

/-- C8: inserting an input array of any attribute type, running the
round-trip script that copies inputs[name] to outputs[name] unchanged, and
extracting under the same type yields exactly the inserted byte
sequence. -/
theorem round_trip_identity (t : Val.DimType) (name : String)
    (data : List Nat) (count : Nat)
    (hlen : data.length = t.size * count) :
    Val.extractResult
        (Val.identityCopyScript (Val.insertArgument [] name data t count)
          [] name)
        name t
      = Except.ok data := by
  cases t <;>
    simp [Val.insertArgument, Val.identityCopyScript, Val.dictSet,
      Val.lookupStr, Val.extractResult, Val.getPythonDataType, Val.npKindOf,
      Val.DimType.size, Val.DimType.base]

/-- Witness for the round-trip theorem: three one-byte unsigned elements
survive the insert, identity copy and extract unchanged. -/
theorem round_trip_identity_witness :
    Val.extractResult
        (Val.identityCopyScript
          (Val.insertArgument [] "z" [1, 2, 3] Val.DimType.uint8 3) [] "z")
        "z" Val.DimType.uint8
      = Except.ok [1, 2, 3] :=
  round_trip_identity Val.DimType.uint8 "z" [1, 2, 3] 3 (by decide)

/-- Overwriting one attribute's column leaves every differently named
column unchanged. -/
theorem storeGet_storeSet_ne (st : Val.Store) (n m : String)
    (b : List Nat) (h : m ≠ n) :
    Val.storeGet (Val.storeSet st n b) m = Val.storeGet st m := by
  induction st with
  | nil => rfl
  | cons kv tl ih =>
    by_cases hk : kv.fst = n
    · have hm : kv.fst ≠ m := fun e => h (e ▸ hk)
      simp [Val.storeSet, Val.storeGet, hk, hm, ih, h, Ne.symm h]
    · by_cases hm : kv.fst = m <;>
        simp [Val.storeSet, Val.storeGet, hk, hm, ih, h, Ne.symm h]

/-- The dimension loop of end never writes a column whose name is not
among the output names. -/
theorem endFold_preserves (varsOut : Val.Dict) (names : List String)
    (name : String) (hname : name ∉ names) :
    ∀ (layout : List (String × Val.DimType)) (store st' : Val.Store),
      layout.foldlM (Val.endStep varsOut names) store = Except.ok st' →
      Val.storeGet st' name = Val.storeGet store name := by
  intro layout
  induction layout with
  | nil =>
    intro store st' h
    simp only [List.foldlM_nil, pure, Except.pure] at h
    injection h with h
    rw [h]
  | cons d tl ih =>
    intro store st' h
    rw [List.foldlM_cons] at h
    cases hstep : Val.endStep varsOut names store d with
    | error e =>
      rw [hstep] at h
      simp only [Bind.bind, Except.bind] at h
      cases h
    | ok st1 =>
      rw [hstep] at h
      simp only [Bind.bind, Except.bind] at h
      have hpres : Val.storeGet st1 name = Val.storeGet store name := by
        unfold Val.endStep at hstep
        by_cases hd : d.fst ∈ names
        · rw [if_pos hd] at hstep
          cases hex : Val.extractResult varsOut d.fst d.snd with
          | error e => rw [hex] at hstep; cases hstep
          | ok data =>
            rw [hex] at hstep
            injection hstep with hst
            rw [← hst]
            exact storeGet_storeSet_ne store d.fst name data
              (fun he => hname (he ▸ hd))
        · rw [if_neg hd] at hstep
          injection hstep with hst
          rw [hst]
      rw [ih st1 st' h, hpres]

/-- C9: when end succeeds, it has cleared the staging-buffer list, and
every attribute whose name is not among the names bound in outputs keeps
its storage unchanged. -/
theorem end_preserves_untouched_and_clears_buffers (varsOut : Val.Dict)
    (layout : List (String × Val.DimType)) (store : Val.Store)
    (buffers : List Nat) (result : Val.Store × List Nat) (name : String)
    (hok : Val.endOp varsOut layout store buffers = Except.ok result)
    (hname : name ∉ Val.getOutputNames varsOut) :
    result.2 = [] ∧ Val.storeGet result.1 name = Val.storeGet store name := by
  unfold Val.endOp at hok
  cases hfold : layout.foldlM
      (Val.endStep varsOut (Val.getOutputNames varsOut)) store with
  | error e => rw [hfold] at hok; cases hok
  | ok st =>
    rw [hfold] at hok
    injection hok with hres
    rw [← hres]
    exact ⟨rfl, endFold_preserves varsOut (Val.getOutputNames varsOut) name
      hname layout store st hfold⟩

/-- Witness for the C9 theorem: a concrete end run over a two-attribute
layout where only attribute a was produced leaves attribute b's column
unchanged and clears the buffer list. -/
theorem end_preserves_witness :
    (([("a", [9]), ("b", [2])], ([] : List Nat)) : Val.Store × List Nat).2 = []
    ∧ Val.storeGet (([("a", [9]), ("b", [2])],
          ([] : List Nat)) : Val.Store × List Nat).1 "b"
        = Val.storeGet storeAB "b" :=
  end_preserves_untouched_and_clears_buffers outDictA layoutAB storeAB [7]
    ([("a", [9]), ("b", [2])], []) "b" (by rfl) (by decide)

/-- Looking a dictionary up by host string never sees an entry whose key
failed to decode. -/
theorem lookupStr_cons_undecodable (v : Val.PyVal) (d : Val.Dict)
    (name : String) :
    Val.lookupStr ((Option.none, v) :: d) name = Val.lookupStr d name := by
  simp [Val.lookupStr, List.find?_cons]

/-- Extraction never sees an entry whose key failed to decode. -/
theorem extract_cons_undecodable (v : Val.PyVal) (d : Val.Dict)
    (name : String) (t : Val.DimType) :
    Val.extractResult ((Option.none, v) :: d) name t
      = Val.extractResult d name t := by
  unfold Val.extractResult
  rw [lookupStr_cons_undecodable]

/-- One end-loop iteration is unaffected by an entry whose key failed to
decode. -/
theorem endStep_cons_undecodable (v : Val.PyVal) (d : Val.Dict)
    (names : List String) (st : Val.Store) (dim : String × Val.DimType) :
    Val.endStep ((Option.none, v) :: d) names st dim
      = Val.endStep d names st dim := by
  unfold Val.endStep
  rw [extract_cons_undecodable]

/-- The whole end loop is unaffected by an entry whose key failed to
decode. -/
theorem endFold_cons_undecodable (v : Val.PyVal) (d : Val.Dict)
    (names : List String) :
    ∀ (layout : List (String × Val.DimType)) (st : Val.Store),
      layout.foldlM (Val.endStep ((Option.none, v) :: d) names) st
        = layout.foldlM (Val.endStep d names) st := by
  intro layout
  induction layout with
  | nil => intro st; rfl
  | cons dim tl ih =>
    intro st
    rw [List.foldlM_cons, List.foldlM_cons, endStep_cons_undecodable]
    cases Val.endStep d names st dim with
    | error e => rfl
    | ok st1 =>
      simp only [Bind.bind, Except.bind]
      exact ih st1

/-- C10: an outputs entry whose key fails to decode to a host string is
silently omitted by getOutputNames (no error is raised), and end behaves
exactly as if the entry were absent, so no host attribute is modified on
its account. -/
theorem undecodable_key_skipped (v : Val.PyVal) (varsOut : Val.Dict)
    (layout : List (String × Val.DimType)) (store : Val.Store)
    (buffers : List Nat) :
    Val.getOutputNames ((Option.none, v) :: varsOut)
        = Val.getOutputNames varsOut
    ∧ Val.endOp ((Option.none, v) :: varsOut) layout store buffers
        = Val.endOp varsOut layout store buffers := by
  have hnames : Val.getOutputNames ((Option.none, v) :: varsOut)
      = Val.getOutputNames varsOut := by
    simp [Val.getOutputNames]
  refine ⟨hnames, ?_⟩
  unfold Val.endOp
  rw [hnames, endFold_cons_undecodable]

end Plang
